import Mathlib

/-!
Verification of the TikTok recipe-newsletter pipeline.

The development shallowly embeds the pipeline's five Python modules:

* `recipe_extractor.py` — the Normalizer (model-response parsing and fence
  stripping) and the Extraction Coordinator (prompt construction).
* `tiktok_scraper.py` — the comment-fetch collaborator.
* `newsletter_builder.py` — the Renderer (`create_html_newsletter`).
* `tiktok_recipe_newsletter.py` — the Batch Processor loop in `main`, the
  Distributor (`send_newsletter`), and the run-level control flow of `main`.

Python dictionaries decoded from JSON are modelled by the `Json` type below;
Python's truthiness, `str()` rendering and `dict.get` are modelled explicitly.
-/

/-- A JSON value as decoded by Python: `None`, booleans, numbers, strings,
lists and (insertion-ordered) dictionaries. Fractional numbers are not needed
by any claim and are not represented. -/
inductive Json where
  | null
  | bool (b : Bool)
  | num (n : Int)
  | str (s : String)
  | arr (elems : List Json)
  | obj (fields : List (String × Json))

/-- Python truthiness of a decoded JSON value: `None`, `False`, `0`, `""`,
`[]` and the empty dict are falsy, everything else is truthy. -/
def truthy : Json → Bool
  | Json.null => false
  | Json.bool b => b
  | Json.num n => n != 0
  | Json.str s => !s.isEmpty
  | Json.arr xs => !xs.isEmpty
  | Json.obj fs => !fs.isEmpty

mutual

/-- Python `str()` of a decoded JSON value: `None` prints as `"None"`,
booleans as `True`/`False`, strings print their contents, and containers
print their `repr` with elements in `repr` form. -/
def pyStr : Json → String
  | Json.null => "None"
  | Json.bool b => cond b "True" "False"
  | Json.num n => toString n
  | Json.str s => s
  | Json.arr xs => "[" ++ seqRepr xs ++ "]"
  | Json.obj fs => "\x7b" ++ fieldsRepr fs ++ "\x7d"

/-- Python `repr()` of a decoded JSON value (strings gain single quotes;
string-escape subtleties inside `repr` are not needed by any claim). -/
def jsonRepr : Json → String
  | Json.null => "None"
  | Json.bool b => cond b "True" "False"
  | Json.num n => toString n
  | Json.str s => "\x27" ++ s ++ "\x27"
  | Json.arr xs => "[" ++ seqRepr xs ++ "]"
  | Json.obj fs => "\x7b" ++ fieldsRepr fs ++ "\x7d"

/-- Comma-separated `repr` of a list of values, as inside Python list `repr`. -/
def seqRepr : List Json → String
  | [] => ""
  | [x] => jsonRepr x
  | x :: xs => jsonRepr x ++ ", " ++ seqRepr xs

/-- Comma-separated `repr` of dict fields, as inside Python dict `repr`. -/
def fieldsRepr : List (String × Json) → String
  | [] => ""
  | [kv] => "\x27" ++ kv.1 ++ "\x27: " ++ jsonRepr kv.2
  | kv :: rest => "\x27" ++ kv.1 ++ "\x27: " ++ jsonRepr kv.2 ++ ", " ++ fieldsRepr rest

end

/-- A recipe record as held by the pipeline: a decoded JSON dictionary,
i.e. an insertion-ordered association list of fields. -/
def RecipeObj := List (String × Json)

/-- Python `dict.get(key, default)` on a recipe record: the default is used
only when the key is absent (a key present with value `None` returns `None`). -/
def dictGetD (r : RecipeObj) (key : String) (dflt : Json) : Json :=
  (List.lookup key r).getD dflt

/-- Python `dict.get(key, default)` on a nested JSON value known to be a
dictionary (in the pipeline `source` is always a dictionary; Python would
raise `AttributeError` on a non-dict, which no claim exercises). -/
def jObjGet (j : Json) (key : String) (dflt : Json) : Json :=
  match j with
  | Json.obj fs => (List.lookup key fs).getD dflt
  | _ => dflt

/-- Python iteration over a decoded JSON value: a list yields its elements,
a string its one-character substrings, a dict its keys. Non-iterable values
raise `TypeError` in Python; no pipeline input reaches that case and it is
modelled as the empty iteration. -/
def pyIter : Json → List Json
  | Json.arr xs => xs
  | Json.str s => s.data.map (fun ch => Json.str (String.singleton ch))
  | Json.obj fs => fs.map (fun kv => Json.str kv.1)
  | _ => []

/-! ### A model of Python `json.loads`

`json.loads` is standard-library code, not part of this repository.
Modelled from the spec: the "parse the remaining text as a structured
object" step of the Recipe Normalizer (spec section 4.1, step 2). The model
accepts `null`, booleans, integers, strings with the common escapes, arrays
and objects, and rejects trailing garbage, exactly as `json.loads` does on
every input used in this development; fractional numbers and `\u` escapes
are rejected, which no claim exercises. -/

/-- True for the whitespace characters `json.loads` skips between tokens. -/
def isJsonWs (c : Char) : Bool :=
  c = ' ' || c = '\n' || c = '\t' || c = '\r'

/-- Skip inter-token whitespace. -/
def skipWs : List Char → List Char
  | [] => []
  | c :: cs => if isJsonWs c then skipWs cs else c :: cs

/-- Match an expected literal character sequence, returning the remainder. -/
def expectChars : List Char → List Char → Option (List Char)
  | [], cs => some cs
  | _ :: _, [] => none
  | p :: ps, c :: cs => if c = p then expectChars ps cs else none

/-- Consume the body of a JSON string after its opening quote, handling the
escapes `\" \\ \/ \n \t \r`; unsupported escapes are a parse failure. -/
def parseStrBody : List Char → Option (List Char × List Char)
  | [] => none
  | '\\' :: e :: rest =>
    let esc : Option Char :=
      if e = '"' then some '"'
      else if e = '\\' then some '\\'
      else if e = '/' then some '/'
      else if e = 'n' then some '\n'
      else if e = 't' then some '\t'
      else if e = 'r' then some '\r'
      else none
    match esc with
    | some c =>
      match parseStrBody rest with
      | some (s, r) => some (c :: s, r)
      | none => none
    | none => none
  | '"' :: rest => some ([], rest)
  | c :: rest =>
    match parseStrBody rest with
    | some (s, r) => some (c :: s, r)
    | none => none

/-- Take a maximal run of decimal digits. -/
def takeDigits : List Char → List Char × List Char
  | [] => ([], [])
  | c :: cs =>
    if c.isDigit then
      let p := takeDigits cs
      (c :: p.1, p.2)
    else ([], c :: cs)

/-- Numeric value of a digit run. -/
def digitsVal (ds : List Char) : Nat :=
  ds.foldl (fun a c => a * 10 + (c.toNat - 48)) 0

/-- After an integer literal, a following `.`, `e` or `E` would start a
fractional or exponent part, which this model rejects. -/
def intTerminator : List Char → Bool
  | [] => true
  | c :: _ => !(c = '.' || c = 'e' || c = 'E')

/-- The opening-brace character of a JSON object. -/
def obrace : Char := Char.ofNat 123

/-- The closing-brace character of a JSON object. -/
def cbrace : Char := Char.ofNat 125

mutual

/-- Parse one JSON value, returning it with the unconsumed remainder.
The fuel argument bounds recursion depth and is chosen large enough for any
input at the top level. -/
def parseVal : Nat → List Char → Option (Json × List Char)
  | 0, _ => none
  | fuel + 1, cs =>
    match skipWs cs with
    | [] => none
    | c :: rest =>
      if c = 'n' then
        match expectChars ['u', 'l', 'l'] rest with
        | some r => some (Json.null, r)
        | none => none
      else if c = 't' then
        match expectChars ['r', 'u', 'e'] rest with
        | some r => some (Json.bool true, r)
        | none => none
      else if c = 'f' then
        match expectChars ['a', 'l', 's', 'e'] rest with
        | some r => some (Json.bool false, r)
        | none => none
      else if c = '"' then
        match parseStrBody rest with
        | some (s, r) => some (Json.str (String.mk s), r)
        | none => none
      else if c = '[' then
        match skipWs rest with
        | ']' :: r2 => some (Json.arr [], r2)
        | r2 =>
          match parseArrItems fuel r2 with
          | some (xs, r3) => some (Json.arr xs, r3)
          | none => none
      else if c = obrace then
        match skipWs rest with
        | [] => none
        | c2 :: r2 =>
          if c2 = cbrace then some (Json.obj [], r2)
          else
            match parseObjItems fuel (c2 :: r2) with
            | some (fs, r3) => some (Json.obj fs, r3)
            | none => none
      else if c = '-' then
        match takeDigits rest with
        | ([], _) => none
        | (ds, r) =>
          if intTerminator r then some (Json.num (-(digitsVal ds : Int)), r) else none
      else if c.isDigit then
        match takeDigits (c :: rest) with
        | (ds, r) =>
          if intTerminator r then some (Json.num (digitsVal ds), r) else none
      else none

/-- Parse the comma-separated elements of a non-empty array, consuming the
closing bracket. -/
def parseArrItems : Nat → List Char → Option (List Json × List Char)
  | 0, _ => none
  | fuel + 1, cs =>
    match parseVal fuel cs with
    | none => none
    | some (j, r) =>
      match skipWs r with
      | ',' :: r2 =>
        match parseArrItems fuel r2 with
        | some (xs, r3) => some (j :: xs, r3)
        | none => none
      | ']' :: r2 => some ([j], r2)
      | _ => none

/-- Parse the comma-separated fields of a non-empty object, consuming the
closing brace. -/
def parseObjItems : Nat → List Char → Option (List (String × Json) × List Char)
  | 0, _ => none
  | fuel + 1, cs =>
    match skipWs cs with
    | '"' :: r1 =>
      match parseStrBody r1 with
      | none => none
      | some (k, r2) =>
        match skipWs r2 with
        | ':' :: r3 =>
          match parseVal fuel r3 with
          | none => none
          | some (v, r4) =>
            match skipWs r4 with
            | ',' :: r5 =>
              match parseObjItems fuel r5 with
              | some (fs, r6) => some ((String.mk k, v) :: fs, r6)
              | none => none
            | c :: r5 => if c = cbrace then some ([(String.mk k, v)], r5) else none
            | [] => none
        | _ => none
    | _ => none

end

/-- The model of `json.loads`: parse one value and require only whitespace
to remain, as `json.loads` raises on trailing data. `none` stands for
`json.JSONDecodeError`. -/
def pyJsonLoads (s : String) : Option Json :=
  match parseVal (4 * s.length + 16) s.data with
  | some (j, rest) => if (skipWs rest).isEmpty then some j else none
  | none => none

/-! ### The Recipe Normalizer (`recipe_extractor.py`, `extract_recipe_with_claude`)

The stripping and parsing of the raw model response, lines 81-96 of
`recipe_extractor.py`:

* `response_text = message.content[0].text.strip()`
* if it starts with a triple-backtick fence, `response_text.split("```")[1]`
  keeps the text between the first and second fence markers, and a leading
  `"json"` language tag is dropped (`response_text[4:]`);
* `json.loads(response_text.strip())`, with `JSONDecodeError` mapped to
  `None` (the absence signal). A parsed JSON `null` decodes to Python `None`
  and is likewise returned, so absence is represented by `Json.null`.
-/

/-- The backtick character. -/
def btick : Char := Char.ofNat 96

/-- Python `str.strip()`: remove leading and trailing whitespace. -/
def pyStrip (s : String) : String :=
  String.mk (((skipWs ((skipWs s.data).reverse)).reverse))

/-- Characters before the first triple-backtick fence marker, i.e. the piece
`split("```")[1]` keeps once the leading fence has been removed. -/
def takeUntilFence : List Char → List Char
  | [] => []
  | c :: cs =>
    if c = btick then
      match cs with
      | c2 :: c3 :: _ =>
        if c2 = btick && c3 = btick then [] else c :: takeUntilFence cs
      | _ => c :: takeUntilFence cs
    else c :: takeUntilFence cs

/-- Drop a leading `"json"` language tag: Python's
`response_text[4:]` applied when `response_text.startswith("json")`. -/
def dropJsonTag : List Char → List Char
  | 'j' :: 's' :: 'o' :: 'n' :: tail => tail
  | l => l

/-- The fence-stripping step of `extract_recipe_with_claude` (lines 87-90):
when the text starts with a triple-backtick fence, keep the text between the
first and second fence markers (`split("```")[1]`) and drop a leading
`"json"` tag. -/
def stripCodeFence (t : String) : String :=
  match t.data with
  | c1 :: c2 :: c3 :: rest =>
    if c1 = btick && c2 = btick && c3 = btick then
      String.mk (dropJsonTag (takeUntilFence rest))
    else t
  | _ => t

/-- The Normalizer of `extract_recipe_with_claude`: strip, remove a code
fence, strip again, and parse. A parse failure yields `Json.null` (Python
`None`, the absence signal); a successful parse is returned unchanged — the
function performs no further validation of the parsed value. -/
def normalizeResult (raw : String) : Json :=
  let t := stripCodeFence (pyStrip raw)
  match pyJsonLoads (pyStrip t) with
  | none => Json.null
  | some j => j

/-- True when the character list ends in a triple-backtick fence. -/
def endsWithFence (cs : List Char) : Bool :=
  match cs.reverse with
  | c1 :: c2 :: c3 :: _ => c1 = btick && c2 = btick && c3 = btick
  | _ => false

/-- Modelled from the spec: the fence-stripping step as the claim words it —
"stripping a leading and trailing triple-backtick fence if present and an
optional language tag token immediately after the opening fence". Used only
to compare the claimed stripping with the implemented one. -/
def specStripFence (raw : String) : String :=
  let t := pyStrip raw
  match t.data with
  | c1 :: c2 :: c3 :: rest =>
    if c1 = btick && c2 = btick && c3 = btick then
      let body := if endsWithFence rest then rest.take (rest.length - 3) else rest
      String.mk (dropJsonTag body)
    else t
  | _ => t

/-! ### Comment fetching (`tiktok_scraper.py`) and prompt construction
(`recipe_extractor.py`, lines 37-70 and 117-122) -/

/-- A TikTok comment as the pipeline shapes it: `{text, author, likes}`. -/
structure TComment where
  text : String
  author : String
  likes : Int

/-- A video reference as produced by `get_video_data_from_url`
(`tiktok_scraper.py`, lines 52-63); only the fields the extraction path
reads are modelled. -/
structure VideoRef where
  id : String
  title : String
  author : String
  video_url : String
  likes : Int
  views : Int
  caption : String

/-- `get_video_comments_simple` (`tiktok_scraper.py`, lines 72-85): comment
fetching is stubbed out and always returns the empty list. -/
def get_video_comments_simple (_videoId : String) : List TComment := []

/-- `get_video_comments` (`tiktok_scraper.py`, lines 147-149): the
backwards-compatibility wrapper; the `max_comments` argument is ignored. -/
def get_video_comments (videoId : String) (_maxComments : Nat) : List TComment :=
  get_video_comments_simple videoId

/-- The comment block of the prompt (`recipe_extractor.py`, line 38):
`"\n".join([f"- {c['text']}" for c in comments[:20]])` — only the first
twenty comments are included. -/
def commentBlock (comments : List TComment) : String :=
  String.intercalate "\n" ((comments.take 20).map (fun c => "- " ++ c.text))

/-- The prompt text before the caption (`recipe_extractor.py`, line 40). -/
def promptIntro : String :=
  "I have data from a TikTok recipe video. The creator often posts the full recipe in the caption or in the comments. Please extract a complete recipe from this information.\n\nVIDEO CAPTION:\n"

/-- The prompt text between the caption and the comment block. -/
def promptMid : String :=
  "\n\nCOMMENTS (creators often post recipes here):\n"

/-- The prompt text after the comment block, including the JSON format the
model is asked to emit (`recipe_extractor.py`, lines 48-70). -/
def promptTail : String :=
  "\n\nPlease extract and structure this into a recipe with the following JSON format:\n\x7b\n  \"title\": \"Recipe name\",\n  \"description\": \"Brief description\",\n  \"prep_time\": \"e.g., 10 minutes (or null if not mentioned)\",\n  \"cook_time\": \"e.g., 20 minutes (or null if not mentioned)\",\n  \"servings\": \"e.g., 4 servings (or null if not mentioned)\",\n  \"ingredients\": [\n    \"1 cup flour\",\n    \"2 eggs\",\n    etc.\n  ],\n  \"instructions\": [\n    \"Step 1: Do this\",\n    \"Step 2: Do that\",\n    etc.\n  ],\n  \"tips\": [\"Any helpful tips mentioned (or empty array)\"]\n\x7d\n\nImportant: Look carefully in the comments - creators often post the full recipe as a comment!\n\nIf you cannot find a complete recipe (at minimum title and ingredients), return null. Only return the JSON, no other text."

/-- The full prompt of `extract_recipe_with_claude` (lines 40-70): the fixed
intro, the full caption, the fixed middle, the comment block, and the fixed
tail. -/
def buildPrompt (caption : String) (comments : List TComment) : String :=
  promptIntro ++ caption ++ promptMid ++ commentBlock comments ++ promptTail

/-- Modelled from the spec: the comment block as the claim words it, with
the first K = 50 (the configured maximum comment count) comment texts. Used
only to compare the claimed prompt with the implemented one. -/
def specCommentBlock (comments : List TComment) : String :=
  String.intercalate "\n" ((comments.take 50).map (fun c => "- " ++ c.text))

/-- Modelled from the spec: the prompt as the claim words it, combining the
full caption with the texts of the first 50 comments. -/
def specBuildPrompt (caption : String) (comments : List TComment) : String :=
  promptIntro ++ caption ++ promptMid ++ specCommentBlock comments ++ promptTail

/-- The prompt actually sent for one video by `extract_recipe_from_video`
(lines 117-122): comments are fetched with `max_comments=50` and combined
with the video's caption. -/
def extractPrompt (v : VideoRef) : String :=
  buildPrompt v.caption (get_video_comments v.id 50)

/-- A synthetic ordered comment list used by concrete instances. -/
def numberedComments (n : Nat) : List TComment :=
  (List.range n).map (fun i => ⟨"comment number " ++ toString i, "author", 0⟩)

/-! ### The Batch Processor (`tiktok_recipe_newsletter.py`, `main`, lines 82-93)

For each video the loop calls `extract_recipe_from_video` inside a
`try`/`except`: a raised exception is caught and logged, a falsy result
(`None`, or a falsy decoded value) is not appended, and a truthy recipe is
appended in input order. The extraction call itself — network, model and
normalization — is the external step; one video's outcome is either the
decoded value it produced or the fact that the call raised. -/

/-- The outcome of `extract_recipe_from_video` for one video: the value it
returned (possibly `Json.null` for absence), or an exception it raised. -/
inductive ExtractOutcome where
  | value (v : Json)
  | raised

/-- A video's extraction failed when the call raised or returned a falsy
value — either way `main` appends nothing for it. -/
def extractFailed : ExtractOutcome → Bool
  | ExtractOutcome.value v => !truthy v
  | ExtractOutcome.raised => true

/-- The batch loop of `main` (lines 82-93): append each truthy extraction
result in input order, skip falsy results, catch and skip exceptions. -/
def processBatch : List ExtractOutcome → List Json
  | [] => []
  | ExtractOutcome.value v :: rest =>
    if truthy v then v :: processBatch rest else processBatch rest
  | ExtractOutcome.raised :: rest => processBatch rest

/-! ### The Distributor (`tiktok_recipe_newsletter.py`, `send_newsletter`,
lines 38-68)

For each subscriber, in list order, one send is attempted inside a
`try`/`except`: success increments `sent_count`, failure appends the
subscriber's email to `failed`. The function visits every subscriber; the
triple returned here is the final loop state
(`sent_count`, `failed`, the emails attempted in order). -/

/-- A subscriber record; fields other than `email` are ignored. -/
structure Subscriber where
  email : String

/-- The per-subscriber send loop of `send_newsletter`: `sendOk e` tells
whether the transport call for address `e` succeeds. -/
def send_newsletter (sendOk : String → Bool) : List Subscriber → Nat × List String × List String
  | [] => (0, [], [])
  | s :: rest =>
    let r := send_newsletter sendOk rest
    if sendOk s.email then (r.1 + 1, r.2.1, s.email :: r.2.2)
    else (r.1, s.email :: r.2.1, s.email :: r.2.2)

/-- Closed form of the send loop: the sent count is the number of
subscribers whose send succeeds, the failed list is the failing subscribers'
emails in list order, and every subscriber is attempted in list order. -/
theorem send_newsletter_spec (sendOk : String → Bool) (subs : List Subscriber) :
    send_newsletter sendOk subs =
      (subs.countP (fun s => sendOk s.email),
       (subs.filter (fun s => !sendOk s.email)).map (fun s => s.email),
       subs.map (fun s => s.email)) := by
  induction subs with
  | nil => rfl
  | cons s rest ih =>
    cases h : sendOk s.email <;>
      simp [send_newsletter, ih, List.countP_cons, h]

/-- Splitting a count by a boolean predicate covers the whole list. -/
theorem countP_split (p : α → Bool) (l : List α) :
    l.countP p + l.countP (fun a => !p a) = l.length := by
  induction l with
  | nil => rfl
  | cons a l ih =>
    cases h : p a <;> simp [List.countP_cons, h] <;> omega

/-! ### Run-level control flow (`tiktok_recipe_newsletter.py`, `main`,
lines 95-122)

After the batch loop, `main` returns early when no recipes were extracted;
otherwise it calls `save_recipes_archive` (line 100, not wrapped in
`try`/`except`), renders the newsletter (line 104), writes
`latest_newsletter.html` (lines 107-108), and, when subscribers exist,
calls `send_newsletter`. The observable file-system and network actions are
modelled as an event trace; an exception escaping `main` is the `raisedExit`
outcome. -/

/-- An observable action of one run. -/
inductive RunEvent where
  | archiveWrite
  | renderDoc
  | previewWrite
  | sendAttempt (email : String) (ok : Bool)
deriving DecidableEq

/-- How the run ends: a normal return, or an uncaught exception. -/
inductive RunExit where
  | normalExit
  | raisedExit
deriving DecidableEq

/-- The run-level control flow of `main` given the extraction outcomes of
the batch, whether the archive write and the preview write succeed, the
subscriber list, and the per-address send outcome. -/
def runMain (outs : List ExtractOutcome) (archiveOk previewOk : Bool)
    (subs : List Subscriber) (sendOk : String → Bool) : List RunEvent × RunExit :=
  let recipes := processBatch outs
  if recipes.isEmpty then ([], RunExit.normalExit)
  else if !archiveOk then ([], RunExit.raisedExit)
  else if !previewOk then ([RunEvent.archiveWrite, RunEvent.renderDoc], RunExit.raisedExit)
  else
    let base := [RunEvent.archiveWrite, RunEvent.renderDoc, RunEvent.previewWrite]
    if subs.isEmpty then (base, RunExit.normalExit)
    else (base ++ subs.map (fun s => RunEvent.sendAttempt s.email (sendOk s.email)),
          RunExit.normalExit)

/-! ### The Renderer (`newsletter_builder.py`, `create_html_newsletter`)

The function is pure except for one `datetime.now().strftime('%B %d, %Y')`
evaluated while building the outer template (line 131); the date string is
therefore a parameter here, and a clocked variant counts how many times the
clock is read. Recipe fields are decoded JSON values; Python renders them
into the f-strings with `str()` (`pyStr`). -/

/-- Digit grouping for Python's `{:,}` format: commas every three digits
from the right (input and output are reversed digit lists). -/
def commaChunk : List Char → List Char
  | d1 :: d2 :: d3 :: rest =>
    match rest with
    | [] => [d1, d2, d3]
    | _ :: _ => d1 :: d2 :: d3 :: ',' :: commaChunk rest
  | l => l

/-- Python `f"{m:,}"` for a natural number. -/
def natComma (m : Nat) : String :=
  String.mk ((commaChunk (toString m).data.reverse).reverse)

/-- Python `f"{n:,}"` for an integer. -/
def pyIntComma (n : Int) : String :=
  if n < 0 then "-" ++ natComma n.natAbs else natComma n.natAbs

/-- Python `f"{v:,}"` for a decoded JSON value: numbers gain thousands
separators. Python raises `TypeError` for non-numeric values, which the
pipeline never supplies (`likes`/`views` are integers stamped by the
Coordinator); such values are rendered with `str()` here. -/
def pyCommaFormat : Json → String
  | Json.num n => pyIntComma n
  | v => pyStr v

/-- One duration/serving slot of a recipe card (lines 73, 77, 81):
`f"{recipe.get(key, 'N/A')}"` — the `'N/A'` default applies only when the
key is absent; a key present with JSON `null` renders as Python `str(None)`,
the string `"None"`. -/
def durationSlot (r : RecipeObj) (key : String) : String :=
  pyStr (dictGetD r key (Json.str "N/A"))

/-- The `<li>` items of the ingredients list (lines 26-28). -/
def ingredientsHtmlOf (r : RecipeObj) : String :=
  String.join ((pyIter (dictGetD r "ingredients" (Json.arr []))).map
    (fun ing => "<li>" ++ pyStr ing ++ "</li>"))

/-- The `<li>` items of the instructions list (lines 31-33). -/
def instructionsHtmlOf (r : RecipeObj) : String :=
  String.join ((pyIter (dictGetD r "instructions" (Json.arr []))).map
    (fun inst => "<li>" ++ pyStr inst ++ "</li>"))

/-- The optional tips block (lines 36-46): built only when
`recipe.get('tips')` is truthy, otherwise the empty string — the block is
omitted entirely, not rendered empty. -/
def tipsHtmlOf (r : RecipeObj) : String :=
  let tv := dictGetD r "tips" Json.null
  if truthy tv then
    let tips_list := String.join ((pyIter tv).map (fun tip => "<li>" ++ pyStr tip ++ "</li>"))
    "\n            <div style=\"background-color: #fff9e6; padding: 15px; border-radius: 8px; margin-top: 15px;\">\n                <h4 style=\"margin-top: 0; color: #f59e0b;\">💡 Tips</h4>\n                <ul style=\"margin: 0; padding-left: 20px;\">\n                    "
      ++ tips_list
      ++ "\n                </ul>\n            </div>\n            "
  else ""

/-- One recipe card (lines 22-112), the f-string of `recipe_card` with the
rank `i`, the recipe's fields, and the `source` dictionary stamped by the
Coordinator. -/
def recipeCard (i : Nat) (r : RecipeObj) : String :=
  let source := dictGetD r "source" (Json.obj [])
  let creator_username := pyStr (jObjGet source "author" (Json.str "Unknown"))
  let creator_url := "https://www.tiktok.com/@" ++ creator_username
  "\n        <div style=\"background-color: white; border-radius: 12px; padding: 25px; margin-bottom: 30px; box-shadow: 0 2px 8px rgba(0,0,0,0.1);\">\n            <div style=\"border-left: 4px solid #10b981; padding-left: 15px; margin-bottom: 20px;\">\n                <h2 style=\"margin: 0 0 10px 0; color: #1f2937;\">#"
    ++ toString i ++ " " ++ pyStr (dictGetD r "title" (Json.str "Untitled Recipe"))
    ++ "</h2>\n                <div style=\"display: flex; align-items: center; gap: 10px; margin: 10px 0;\">\n                    <div style=\"background: linear-gradient(45deg, #ff0050, #00f2ea); padding: 8px 12px; border-radius: 20px;\">\n                        <a href=\""
    ++ creator_url
    ++ "\" style=\"color: white; text-decoration: none; font-weight: 600; font-size: 14px;\">\n                            📱 @"
    ++ creator_username
    ++ "\n                        </a>\n                    </div>\n                    <span style=\"color: #6b7280; font-size: 14px;\">\n                        ❤️ "
    ++ pyCommaFormat (jObjGet source "likes" (Json.num 0))
    ++ " likes • 👁️ "
    ++ pyCommaFormat (jObjGet source "views" (Json.num 0))
    ++ " views\n                    </span>\n                </div>\n            </div>\n            \n            <p style=\"color: #4b5563; line-height: 1.6; font-size: 16px;\">"
    ++ pyStr (dictGetD r "description" (Json.str ""))
    ++ "</p>\n            \n            <div style=\"display: flex; gap: 20px; margin: 20px 0; flex-wrap: wrap;\">\n                <div style=\"background-color: #f3f4f6; padding: 10px 15px; border-radius: 6px;\">\n                    <span style=\"color: #6b7280; font-size: 13px;\">⏱️ Prep:</span>\n                    <strong style=\"color: #1f2937;\">"
    ++ durationSlot r "prep_time"
    ++ "</strong>\n                </div>\n                <div style=\"background-color: #f3f4f6; padding: 10px 15px; border-radius: 6px;\">\n                    <span style=\"color: #6b7280; font-size: 13px;\">🍳 Cook:</span>\n                    <strong style=\"color: #1f2937;\">"
    ++ durationSlot r "cook_time"
    ++ "</strong>\n                </div>\n                <div style=\"background-color: #f3f4f6; padding: 10px 15px; border-radius: 6px;\">\n                    <span style=\"color: #6b7280; font-size: 13px;\">🍽️ Serves:</span>\n                    <strong style=\"color: #1f2937;\">"
    ++ durationSlot r "servings"
    ++ "</strong>\n                </div>\n            </div>\n            \n            <div style=\"margin: 25px 0;\">\n                <h3 style=\"color: #1f2937; margin-bottom: 15px;\">🛒 Ingredients</h3>\n                <ul style=\"color: #4b5563; line-height: 1.8; padding-left: 20px;\">\n                    "
    ++ ingredientsHtmlOf r
    ++ "\n                </ul>\n            </div>\n            \n            <div style=\"margin: 25px 0;\">\n                <h3 style=\"color: #1f2937; margin-bottom: 15px;\">👨‍🍳 Instructions</h3>\n                <ol style=\"color: #4b5563; line-height: 1.8; padding-left: 20px;\">\n                    "
    ++ instructionsHtmlOf r
    ++ "\n                </ol>\n            </div>\n            \n            "
    ++ tipsHtmlOf r
    ++ "\n            \n            <div style=\"margin-top: 20px; padding-top: 20px; border-top: 1px solid #e5e7eb;\">\n                <a href=\""
    ++ pyStr (jObjGet source "url" (Json.str "#"))
    ++ "\" \n                   style=\"display: inline-block; background-color: #10b981; color: white; padding: 12px 24px; \n                          text-decoration: none; border-radius: 6px; font-weight: 600;\">\n                    Watch Original Video by @"
    ++ creator_username
    ++ " →\n                </a>\n                <p style=\"color: #9ca3af; font-size: 12px; margin-top: 10px;\">\n                    ❤️ Support the creator by liking and following on TikTok!\n                </p>\n            </div>\n        </div>\n        "

/-- The card accumulation loop (lines 21-114): `enumerate(recipes, 1)`
concatenating one card per recipe, in batch order. -/
def recipeCardsFrom : Nat → List RecipeObj → String
  | _, [] => ""
  | i, r :: rest => recipeCard i r ++ recipeCardsFrom (i + 1) rest

/-- The outer HTML template before the generation date (lines 117-131). -/
def htmlShellPre : String :=
  "\n    <!DOCTYPE html>\n    <html lang=\"en\">\n    <head>\n        <meta charset=\"UTF-8\">\n        <meta name=\"viewport\" content=\"width=device-width, initial-scale=1.0\">\n        <title>Top TikTok Recipes</title>\n    </head>\n    <body style=\"margin: 0; padding: 0; background-color: #f9fafb; font-family: -apple-system, BlinkMacSystemFont, \x27Segoe UI\x27, Roboto, \x27Helvetica Neue\x27, Arial, sans-serif;\">\n        <div style=\"max-width: 600px; margin: 0 auto; padding: 20px;\">\n            <!-- Header -->\n            <div style=\"text-align: center; padding: 40px 20px;\">\n                <h1 style=\"color: #1f2937; margin: 0; font-size: 36px;\">🍳 TikTok Recipe Roundup</h1>\n                <p style=\"color: #6b7280; margin: 10px 0 0 0; font-size: 18px;\">\n                    Top 5 Trending Recipes • "

/-- The outer HTML template between the generation date and the recipe
cards (lines 131-136). -/
def htmlShellMid : String :=
  "\n                </p>\n            </div>\n            \n            <!-- Recipes -->\n            "

/-- The outer HTML template after the recipe cards (lines 136-152). -/
def htmlShellPost : String :=
  "\n            \n            <!-- Footer -->\n            <div style=\"text-align: center; padding: 40px 20px; color: #9ca3af; font-size: 14px;\">\n                <p style=\"margin-bottom: 15px;\">\n                    ⭐ All recipes are credited to their original TikTok creators.<br>\n                    Please support them by watching, liking, and following!\n                </p>\n                <p>You\x27re receiving this because you subscribed to TikTok Recipe Newsletter</p>\n                <p style=\"margin-top: 10px;\">\n                    Made with ❤️ by your friendly recipe bot\n                </p>\n            </div>\n        </div>\n    </body>\n    </html>\n    "

/-- `create_html_newsletter` (lines 9-154) with the single ambient
`datetime.now().strftime('%B %d, %Y')` read passed in as `dateStr`: the
document is one header (with the date), the concatenated cards in batch
order starting at rank 1, and one footer. -/
def create_html_newsletter (recipes : List RecipeObj) (dateStr : String) : String :=
  htmlShellPre ++ dateStr ++ htmlShellMid ++ recipeCardsFrom 1 recipes ++ htmlShellPost

/-- `create_html_newsletter` with the ambient clock made explicit: `clock n`
is the date string the `n`-th `datetime.now()` call would observe, and the
returned number counts how many clock reads the function performs. The
source contains exactly one `datetime.now()` call site (line 131), read
while assembling the outer template. -/
def createHtmlNewsletterClocked (recipes : List RecipeObj) (clock : Nat → String) :
    String × Nat :=
  (create_html_newsletter recipes (clock 0), 1)

/-! ## Concrete fixtures used by witnesses and counterexamples -/

/-- A well-formed recipe record as decoded from a model response. -/
def pastaRecipe : Json :=
  Json.obj [("title", Json.str "Pasta"), ("ingredients", Json.arr [Json.str "1 cup flour", Json.str "2 eggs"])]

/-- A batch of extraction outcomes: one success, one raised exception, one
absence (`None`). -/
def demoOuts : List ExtractOutcome :=
  [ExtractOutcome.value pastaRecipe, ExtractOutcome.raised, ExtractOutcome.value Json.null]

/-- What the batch loop keeps of a single outcome: the decoded value when
it is truthy, nothing when the extraction raised or returned a falsy value. -/
def extractValue : ExtractOutcome → Option Json
  | ExtractOutcome.value v => if truthy v then some v else none
  | ExtractOutcome.raised => none

/-! ## Helper lemmas -/

/-- The batch loop is the order-preserving `filterMap` of its outcomes. -/
theorem processBatch_eq_filterMap (outs : List ExtractOutcome) :
    processBatch outs = outs.filterMap extractValue := by
  induction outs with
  | nil => rfl
  | cons o rest ih =>
    cases o with
    | value v => cases h : truthy v <;> simp [processBatch, extractValue, h, ih]
    | raised => simp [processBatch, extractValue, ih]

/-- Kept recipes and failed extractions partition the batch. -/
theorem processBatch_length_add (outs : List ExtractOutcome) :
    (processBatch outs).length + outs.countP extractFailed = outs.length := by
  induction outs with
  | nil => rfl
  | cons o rest ih =>
    cases o with
    | value v =>
      cases h : truthy v <;> simp [processBatch, extractFailed, List.countP_cons, h] <;> omega
    | raised =>
      simp [processBatch, extractFailed, List.countP_cons]
      omega

/-! ## Claims -/

/-- Claim C1: for every ordered sequence of extraction outcomes of which M
fail (raised or returned no usable recipe), the batch loop of `main` returns
exactly N−M records, equal to the order-preserving `filterMap` of the
successes (failed extractions leave no gap), and a failed outcome is simply
skipped — the loop continues with the rest of the batch instead of
aborting. -/
theorem batch_processor_drops_failures_in_order
    (outs : List ExtractOutcome) (o : ExtractOutcome) (rest : List ExtractOutcome) :
    (processBatch outs).length = outs.length - outs.countP extractFailed
    ∧ processBatch outs = outs.filterMap extractValue
    ∧ (extractFailed o = true → processBatch (o :: rest) = processBatch rest) := by
  refine ⟨?_, processBatch_eq_filterMap outs, ?_⟩
  · have := processBatch_length_add outs
    omega
  · intro h
    cases o with
    | value v =>
      have hv : truthy v = false := by
        simpa [extractFailed] using h
      simp [processBatch, hv]
    | raised => rfl

/-- Witness for C1 at a concrete batch: one success, one raised exception
and one absence yield the single successful record, and prepending a failed
outcome leaves the batch result unchanged. -/
theorem batch_processor_drops_failures_in_order_witness :
    (processBatch demoOuts).length = demoOuts.length - demoOuts.countP extractFailed
    ∧ processBatch demoOuts = demoOuts.filterMap extractValue
    ∧ processBatch (ExtractOutcome.raised :: demoOuts) = processBatch demoOuts :=
  ⟨(batch_processor_drops_failures_in_order demoOuts ExtractOutcome.raised demoOuts).1,
   (batch_processor_drops_failures_in_order demoOuts ExtractOutcome.raised demoOuts).2.1,
   (batch_processor_drops_failures_in_order demoOuts ExtractOutcome.raised demoOuts).2.2 rfl⟩

/-- Claim C2 counterexample: a model response that parses to a record with a
non-empty `title` and an empty `ingredients` list is returned by the
Normalizer as that record — not as the absence signal — because
`extract_recipe_with_claude` performs no validity check after `json.loads`.
This refutes the claim that such records are rejected. -/
theorem normalizer_keeps_empty_ingredients_counterexample :
    normalizeResult "\x7b\x22title\x22: \x22Pasta\x22, \x22ingredients\x22: []\x7d" =
      Json.obj [("title", Json.str "Pasta"), ("ingredients", Json.arr [])]
    ∧ normalizeResult "\x7b\x22title\x22: \x22Pasta\x22, \x22ingredients\x22: []\x7d" ≠ Json.null
    ∧ truthy (normalizeResult "\x7b\x22title\x22: \x22Pasta\x22, \x22ingredients\x22: []\x7d") = true := by
  refine ⟨rfl, ?_, rfl⟩
  intro he
  rw [show normalizeResult "\x7b\x22title\x22: \x22Pasta\x22, \x22ingredients\x22: []\x7d" =
        Json.obj [("title", Json.str "Pasta"), ("ingredients", Json.arr [])] from rfl] at he
  exact Json.noConfusion he

/-- Claim C2 (amended): the Normalizer applies no validity invariant —
whatever value the stripped response parses to is returned unchanged, with
empty `title` or empty `ingredients` included; absence is produced only by a
parse failure or by the model itself returning `null` (a falsy value). -/
theorem normalizer_returns_parsed_value_unvalidated (raw : String) (j : Json)
    (h : pyJsonLoads (pyStrip (stripCodeFence (pyStrip raw))) = some j) :
    normalizeResult raw = j := by
  simp [normalizeResult, h]

/-- Witness for the amended C2: a fenced response whose record has an empty
`title` and non-empty `ingredients` is returned exactly as parsed. -/
theorem normalizer_returns_parsed_value_unvalidated_witness :
    normalizeResult "```json\n\x7b\x22title\x22: \x22\x22, \x22ingredients\x22: [\x22egg\x22]\x7d\n```" =
      Json.obj [("title", Json.str ""), ("ingredients", Json.arr [Json.str "egg"])] :=
  normalizer_returns_parsed_value_unvalidated
    "```json\n\x7b\x22title\x22: \x22\x22, \x22ingredients\x22: [\x22egg\x22]\x7d\n```"
    (Json.obj [("title", Json.str ""), ("ingredients", Json.arr [Json.str "egg"])]) rfl

/-- A recipe record whose `prep_time` key is present with JSON `null`, as
the extraction prompt instructs the model to emit for unknown times. -/
def nullPrepRecipe : RecipeObj :=
  [("title", Json.str "Chili Oil Noodles"), ("prep_time", Json.null),
   ("cook_time", Json.str "5 minutes"), ("servings", Json.str "2 servings"),
   ("ingredients", Json.arr [Json.str "noodles"]),
   ("instructions", Json.arr [Json.str "Boil the noodles."]), ("tips", Json.arr [])]

/-- Claim C3 counterexample: `recipe.get('prep_time', 'N/A')` substitutes
the `'N/A'` placeholder only when the key is absent. On a record whose
`prep_time` is present with value `null`, the duration slot renders Python
`str(None)`, the string `"None"`, not the claimed `"N/A"`. -/
theorem renderer_null_slot_counterexample :
    List.lookup "prep_time" nullPrepRecipe = some Json.null
    ∧ durationSlot nullPrepRecipe "prep_time" = "None"
    ∧ durationSlot nullPrepRecipe "prep_time" ≠ "N/A" := by
  refine ⟨rfl, rfl, ?_⟩
  decide

/-- Claim C3 (amended): the renderer never raises — for any single-record
batch it produces the assembled document — and each duration/serving slot
falls back to the literal `"N/A"` exactly when its key is absent, while a
key present with `null` renders as `"None"`; the tips block is omitted
entirely (the empty string is spliced in) whenever `tips` is falsy (absent,
`null` or the empty list). -/
theorem renderer_placeholders_and_tips (r : RecipeObj) (k : String) :
    (List.lookup k r = none → durationSlot r k = "N/A")
    ∧ (List.lookup k r = some Json.null → durationSlot r k = "None")
    ∧ (truthy (dictGetD r "tips" Json.null) = false → tipsHtmlOf r = "")
    ∧ ∀ dateStr, create_html_newsletter [r] dateStr =
        htmlShellPre ++ dateStr ++ htmlShellMid ++ recipeCard 1 r ++ htmlShellPost := by
  refine ⟨?_, ?_, ?_, ?_⟩
  · intro h
    simp [durationSlot, dictGetD, h, pyStr]
  · intro h
    simp [durationSlot, dictGetD, h, pyStr]
  · intro h
    simp [tipsHtmlOf, h]
  · intro dateStr
    simp [create_html_newsletter, recipeCardsFrom]

/-- Witness for the amended C3 at a concrete record: `prep_time` is absent
(slot renders `"N/A"`), `cook_time` is `null` on the same shape of record
via the counterexample record, and empty `tips` produce no block. -/
theorem renderer_placeholders_and_tips_witness :
    (durationSlot [("title", Json.str "Toast")] "prep_time" = "N/A")
    ∧ (durationSlot nullPrepRecipe "prep_time" = "None")
    ∧ (tipsHtmlOf nullPrepRecipe = "")
    ∧ create_html_newsletter [nullPrepRecipe] "October 12, 2025" =
        htmlShellPre ++ "October 12, 2025" ++ htmlShellMid ++ recipeCard 1 nullPrepRecipe ++ htmlShellPost :=
  ⟨(renderer_placeholders_and_tips [("title", Json.str "Toast")] "prep_time").1 rfl,
   (renderer_placeholders_and_tips nullPrepRecipe "prep_time").2.1 rfl,
   (renderer_placeholders_and_tips nullPrepRecipe "prep_time").2.2.1 rfl,
   (renderer_placeholders_and_tips nullPrepRecipe "prep_time").2.2.2 "October 12, 2025"⟩

/-- Claim C4: the renderer is deterministic — with the ambient clock made
explicit, two runs over the same batch whose clocks agree on the first
reading produce byte-identical documents; exactly one clock read is
performed (the `datetime.now()` call site of line 131, evaluated once while
the outer template is assembled, never per recipe), and the output depends
only on the batch and that single reading. -/
theorem renderer_deterministic_single_clock_read
    (recipes : List RecipeObj) (c c' : Nat → String) (h : c 0 = c' 0) :
    createHtmlNewsletterClocked recipes c = createHtmlNewsletterClocked recipes c'
    ∧ (createHtmlNewsletterClocked recipes c).2 = 1
    ∧ (createHtmlNewsletterClocked recipes c).1 = create_html_newsletter recipes (c 0) := by
  simp [createHtmlNewsletterClocked, h]

/-- Witness for C4: two concrete clocks that agree at reading 0 but nowhere
else render the same bytes for a concrete batch. -/
theorem renderer_deterministic_single_clock_read_witness :
    createHtmlNewsletterClocked [nullPrepRecipe] (fun _ => "October 12, 2025") =
      createHtmlNewsletterClocked [nullPrepRecipe]
        (fun n => if n = 0 then "October 12, 2025" else "December 31, 2099")
    ∧ (createHtmlNewsletterClocked [nullPrepRecipe] (fun _ => "October 12, 2025")).2 = 1
    ∧ (createHtmlNewsletterClocked [nullPrepRecipe] (fun _ => "October 12, 2025")).1 =
        create_html_newsletter [nullPrepRecipe] "October 12, 2025" :=
  renderer_deterministic_single_clock_read [nullPrepRecipe]
    (fun _ => "October 12, 2025")
    (fun n => if n = 0 then "October 12, 2025" else "December 31, 2099") rfl

/-- Claim C5: when exactly one subscriber's send fails, `send_newsletter`
still attempts a send for every subscriber in list order, ends with
`sent_count = K - 1`, and records exactly the failing address in its
`failed` list; the individual failure is caught, not raised. -/
theorem distributor_tolerates_one_failure
    (sendOk : String → Bool) (subs : List Subscriber) (bad : String)
    (h : (subs.filter (fun s => !sendOk s.email)).map (fun s => s.email) = [bad]) :
    send_newsletter sendOk subs =
      (subs.length - 1, [bad], subs.map (fun s => s.email)) := by
  have hs := send_newsletter_spec sendOk subs
  have hcount := countP_split (fun s => sendOk s.email) subs
  have hflen : (subs.filter (fun s => !sendOk s.email)).length = 1 := by
    have hmap := congrArg List.length h
    simpa using hmap
  have hc1 : subs.countP (fun s => !sendOk s.email) = 1 := by
    rw [List.countP_eq_length_filter]
    exact hflen
  have hsent : subs.countP (fun s => sendOk s.email) = subs.length - 1 := by omega
  rw [hs, hsent, h]

/-- Witness for C5: of three subscribers, only the second send fails; all
three are attempted in order, two are counted sent, and exactly the bad
address is recorded. -/
theorem distributor_tolerates_one_failure_witness :
    send_newsletter (fun e => e != "bad@example.com")
        [⟨"a@example.com"⟩, ⟨"bad@example.com"⟩, ⟨"c@example.com"⟩] =
      (2, ["bad@example.com"], ["a@example.com", "bad@example.com", "c@example.com"]) :=
  distributor_tolerates_one_failure (fun e => e != "bad@example.com")
    [⟨"a@example.com"⟩, ⟨"bad@example.com"⟩, ⟨"c@example.com"⟩] "bad@example.com" (by decide)

/-- Claim C6: a run whose batch yields zero valid recipes short-circuits
with a normal return and an empty event trace — no archive write, no
render, no preview write, no send attempt; a run with at least one valid
recipe whose file writes succeed completes normally for every subscriber
list and every per-address send outcome, whether or not any email is sent. -/
theorem run_short_circuits_only_on_empty_batch
    (outs : List ExtractOutcome) (archiveOk previewOk : Bool)
    (subs : List Subscriber) (sendOk : String → Bool) :
    (processBatch outs = [] →
      runMain outs archiveOk previewOk subs sendOk = ([], RunExit.normalExit))
    ∧ (processBatch outs ≠ [] → archiveOk = true → previewOk = true →
        (runMain outs archiveOk previewOk subs sendOk).2 = RunExit.normalExit) := by
  constructor
  · intro h
    simp [runMain, h]
  · intro h ha hp
    subst ha
    subst hp
    cases hsubs : subs.isEmpty <;> simp [runMain, h, hsubs]

/-- Witness for C6: a batch of five failed extractions produces the empty
trace and a normal exit, and a batch with one valid recipe completes
normally both with an empty subscriber list and with a subscriber whose
send fails. -/
theorem run_short_circuits_only_on_empty_batch_witness :
    runMain [ExtractOutcome.raised, ExtractOutcome.value Json.null, ExtractOutcome.raised,
        ExtractOutcome.value Json.null, ExtractOutcome.raised] true true
        [⟨"a@example.com"⟩] (fun _ => true) = ([], RunExit.normalExit)
    ∧ (runMain [ExtractOutcome.value pastaRecipe] true true [] (fun _ => true)).2 =
        RunExit.normalExit
    ∧ (runMain [ExtractOutcome.value pastaRecipe] true true [⟨"a@example.com"⟩]
        (fun _ => false)).2 = RunExit.normalExit :=
  ⟨(run_short_circuits_only_on_empty_batch _ true true [⟨"a@example.com"⟩] (fun _ => true)).1 rfl,
   (run_short_circuits_only_on_empty_batch [ExtractOutcome.value pastaRecipe] true true []
      (fun _ => true)).2 (by simp [processBatch, pastaRecipe, truthy]) rfl rfl,
   (run_short_circuits_only_on_empty_batch [ExtractOutcome.value pastaRecipe] true true
      [⟨"a@example.com"⟩] (fun _ => false)).2 (by simp [processBatch, pastaRecipe, truthy]) rfl rfl⟩

/-- Claim C7 counterexample: with a non-empty recipe batch and a failing
archive write, the run raises out of `save_recipes_archive` (line 100 is
not wrapped in `try`/`except`): the trace is empty — the document is never
rendered and the preview file is never written — refuting the claim that
the run continues to render and write the preview after an archive
failure. -/
theorem archive_failure_counterexample :
    runMain [ExtractOutcome.value pastaRecipe] false true [⟨"a@example.com"⟩] (fun _ => true) =
      ([], RunExit.raisedExit)
    ∧ RunEvent.renderDoc ∉
        (runMain [ExtractOutcome.value pastaRecipe] false true [⟨"a@example.com"⟩] (fun _ => true)).1
    ∧ RunEvent.previewWrite ∉
        (runMain [ExtractOutcome.value pastaRecipe] false true [⟨"a@example.com"⟩] (fun _ => true)).1 := by
  refine ⟨rfl, ?_, ?_⟩ <;> simp [runMain, processBatch, pastaRecipe, truthy]

/-- Claim C7 (amended): an archive write failure on a non-empty batch is
fatal — the exception propagates out of `main` before rendering, so no
preview is written and the run terminates abnormally (matching the spec's
statement that write failures occurring before rendering are fatal). -/
theorem archive_failure_aborts_run
    (outs : List ExtractOutcome) (previewOk : Bool)
    (subs : List Subscriber) (sendOk : String → Bool)
    (h : processBatch outs ≠ []) :
    runMain outs false previewOk subs sendOk = ([], RunExit.raisedExit)
    ∧ RunEvent.previewWrite ∉ (runMain outs false previewOk subs sendOk).1 := by
  have hrun : runMain outs false previewOk subs sendOk = ([], RunExit.raisedExit) := by
    simp [runMain, h]
  refine ⟨hrun, ?_⟩
  rw [hrun]
  simp

/-- Witness for the amended C7 at a concrete run: one valid recipe, archive
write failing, one subscriber. -/
theorem archive_failure_aborts_run_witness :
    runMain [ExtractOutcome.value pastaRecipe] false true [⟨"b@example.com"⟩] (fun _ => true) =
      ([], RunExit.raisedExit)
    ∧ RunEvent.previewWrite ∉
        (runMain [ExtractOutcome.value pastaRecipe] false true [⟨"b@example.com"⟩] (fun _ => true)).1 :=
  archive_failure_aborts_run [ExtractOutcome.value pastaRecipe] true [⟨"b@example.com"⟩]
    (fun _ => true) (by simp [processBatch, pastaRecipe, truthy])

/-- Claim C8 counterexample: the implemented fence handling is
`split("```")[1]` — the text between the first two fence markers — not the
claimed "strip a leading and trailing fence". On a response carrying data
after the closing fence, the claimed stripping leaves unparseable text
(so the claim demands absence), yet the Normalizer parses the inner piece
and returns a record. -/
theorem fence_stripping_counterexample :
    pyJsonLoads (pyStrip (specStripFence "```\x7b\x22a\x22: 1\x7d```x")) = none
    ∧ normalizeResult "```\x7b\x22a\x22: 1\x7d```x" = Json.obj [("a", Json.num 1)]
    ∧ normalizeResult "```\x7b\x22a\x22: 1\x7d```x" ≠ Json.null := by
  refine ⟨rfl, rfl, ?_⟩
  intro he
  rw [show normalizeResult "```\x7b\x22a\x22: 1\x7d```x" = Json.obj [("a", Json.num 1)] from rfl] at he
  exact Json.noConfusion he

/-- Claim C8 (amended): for every raw response text whose stripped form —
under the stripping the code implements: keep the text between the first
two triple-backtick markers when the response starts with a fence, then
drop a leading `json` tag — fails to parse, the Normalizer returns the
absence signal; no input raises, the whole path being a total function of
the text. -/
theorem normalizer_absence_on_parse_failure (raw : String)
    (h : pyJsonLoads (pyStrip (stripCodeFence (pyStrip raw))) = none) :
    normalizeResult raw = Json.null := by
  simp [normalizeResult, h]

/-- Witness for the amended C8: free prose, a fence with unparseable
contents, and a bare fence all map to absence. -/
theorem normalizer_absence_on_parse_failure_witness :
    normalizeResult "Sorry, no recipe found in this video." = Json.null
    ∧ normalizeResult "```json\nthis is not json\n```" = Json.null
    ∧ normalizeResult "```" = Json.null :=
  ⟨normalizer_absence_on_parse_failure "Sorry, no recipe found in this video." rfl,
   normalizer_absence_on_parse_failure "```json\nthis is not json\n```" rfl,
   normalizer_absence_on_parse_failure "```" rfl⟩

set_option maxRecDepth 8192 in
/-- Claim C9 counterexample: the prompt built for a 21-comment set differs
from the claimed construction with K = 50 (under which all 21 texts would
appear): `extract_recipe_with_claude` slices `comments[:20]`, so the
twenty-first comment is dropped even though the fetch bound is 50. -/
theorem prompt_truncates_at_twenty_counterexample :
    buildPrompt "Easy pasta" (numberedComments 21) ≠
      specBuildPrompt "Easy pasta" (numberedComments 21)
    ∧ commentBlock (numberedComments 21) = commentBlock (numberedComments 20) := by
  constructor
  · decide
  · rfl

/-- Claim C9 (amended): the prompt combines the full caption with the texts
of the first twenty comments — not the configured fetch maximum of fifty —
in provider order: comments beyond the twentieth never influence the
prompt, and when at most twenty are present their texts appear in order,
one `"- "`-prefixed line each. -/
theorem prompt_uses_first_twenty (caption : String) (comments : List TComment) :
    buildPrompt caption comments = buildPrompt caption (comments.take 20)
    ∧ (comments.length ≤ 20 →
        commentBlock comments =
          String.intercalate "\n" (comments.map (fun c => "- " ++ c.text))) := by
  constructor
  · simp [buildPrompt, commentBlock, List.take_take]
  · intro h
    simp [commentBlock, List.take_of_length_le h]

/-- Witness for the amended C9: with two comments the prompt equals its
20-truncated form and the comment block lists both texts in order. -/
theorem prompt_uses_first_twenty_witness :
    buildPrompt "cap" (numberedComments 2) =
      buildPrompt "cap" ((numberedComments 2).take 20)
    ∧ commentBlock (numberedComments 2) =
        String.intercalate "\n" ((numberedComments 2).map (fun c => "- " ++ c.text)) :=
  ⟨(prompt_uses_first_twenty "cap" (numberedComments 2)).1,
   (prompt_uses_first_twenty "cap" (numberedComments 2)).2 (by decide)⟩

/-- Claim C10: comment fetching is stubbed out — `get_video_comments`
returns the empty list for every video id and maximum — it cannot raise
(it is a total constant function), and consequently every extraction
prompt is the prompt over the empty comment set: its comment block is
empty. -/
theorem comment_fetch_always_empty
    (v : VideoRef) (videoId : String) (maxComments : Nat) :
    get_video_comments videoId maxComments = []
    ∧ extractPrompt v = buildPrompt v.caption []
    ∧ commentBlock (get_video_comments videoId maxComments) = "" :=
  ⟨rfl, rfl, rfl⟩
